import Mathlib

/-
Shallow embedding of the ERPlora `schedules` module (src/models.py, src/views.py).

Modelling conventions:
* Clock times are minutes since midnight (`Nat`, 0..1439): the UI posts `HH:MM`
  strings and the slot arithmetic in `get_slots` works on whole minutes.
* Nullable `TimeField`s become `Option Nat`; non-null ones become `Nat`.
  The Python presence guards (`if self.open_time and self.close_time`) test
  truthiness; on Python >= 3.5 every `datetime.time` value (midnight included)
  is truthy, so the guards are exactly `isSome` tests for nullable fields and
  vacuous for non-null fields.
* Calendar dates are proleptic-Gregorian `(year, month, day)` triples; ordering
  is lexicographic, matching `datetime.date` ordering, and `Date.weekday`
  reproduces Python's `date.weekday()` (0 = Monday).
* A tenant's persisted state is a `Hub`: the non-soft-deleted rows only (every
  query in the views filters `is_deleted=False`, so soft-deleted rows are
  modelled by absence).  `BusinessHours` rows are unique per `(hub, day_of_week)`
  (DB constraint), hence `weekly` is a function from weekday to an optional row.
  Special days and overrides are kept as lists in the order the queries return
  them (`date` ascending resp. `start_date` descending); `.first()` is `find?`.
* `ValidationError` raising `clean` methods become `Except String Unit` where
  the string is the error message.
-/

namespace Schedules

/-- Calendar date, proleptic Gregorian (as Python's `datetime.date`). -/
structure Date where
  year : Nat
  month : Nat
  day : Nat
deriving DecidableEq, Repr

/-- Date comparison `a <= b` (lexicographic, as Python's `date.__le__`). -/
def Date.ble (a b : Date) : Bool :=
  decide (a.year < b.year) ||
    (decide (a.year = b.year) &&
      (decide (a.month < b.month) ||
        (decide (a.month = b.month) && decide (a.day ≤ b.day))))

/-- Date comparison `a < b` (lexicographic, as Python's `date.__lt__`). -/
def Date.blt (a b : Date) : Bool :=
  decide (a.year < b.year) ||
    (decide (a.year = b.year) &&
      (decide (a.month < b.month) ||
        (decide (a.month = b.month) && decide (a.day < b.day))))

/-- Gregorian leap-year test. -/
def isLeap (y : Nat) : Bool :=
  (decide (y % 4 = 0) && decide (y % 100 ≠ 0)) || decide (y % 400 = 0)

/-- Days in the months strictly before month `m` of a non-leap year. -/
def monthOffset (m : Nat) : Nat :=
  [0, 31, 59, 90, 120, 151, 181, 212, 243, 273, 304, 334].getD (m - 1) 0

/-- Proleptic-Gregorian ordinal of a date, as Python's `date.toordinal()`
(0001-01-01 has ordinal 1). -/
def Date.ordinal (d : Date) : Nat :=
  let py := d.year - 1
  365 * py + py / 4 - py / 100 + py / 400 + monthOffset d.month +
    (if 2 < d.month && isLeap d.year then 1 else 0) + d.day

/-- Weekday with 0 = Monday .. 6 = Sunday, as Python's `date.weekday()`. -/
def Date.weekday (d : Date) : Nat :=
  (d.ordinal + 6) % 7

/-- One `BusinessHours` row (src/models.py).  `open_time`/`close_time` are
non-null columns with defaults; the break columns are nullable. -/
structure BusinessHours where
  day_of_week : Nat
  open_time : Nat
  close_time : Nat
  is_closed : Bool
  break_start : Option Nat
  break_end : Option Nat
deriving DecidableEq, Repr

/-- One `SpecialDay` row (src/models.py). -/
structure SpecialDay where
  date : Date
  name : String
  is_closed : Bool
  open_time : Option Nat
  close_time : Option Nat
  recurring_yearly : Bool
deriving DecidableEq, Repr

/-- One `ScheduleOverride` row (src/models.py). -/
structure ScheduleOverride where
  start_date : Date
  end_date : Date
  reason : String
  open_time : Option Nat
  close_time : Option Nat
  is_closed : Bool
deriving DecidableEq, Repr

/-- A tenant's live (non-soft-deleted) schedule rows.  `weekly` encodes the
`(hub_id, day_of_week)` uniqueness constraint of `schedules_business_hours`. -/
structure Hub where
  weekly : Nat → Option BusinessHours
  specials : List SpecialDay
  overrides : List ScheduleOverride

/-- The break-window membership test shared verbatim by `is_open_at` and
`get_slots`: `if self.break_start and self.break_end: if break_start <= t <
break_end`.  Both guards require both nullable fields to be present. -/
def inBreak (e : BusinessHours) (t : Nat) : Bool :=
  match e.break_start, e.break_end with
  | some bs, some be => decide (bs ≤ t) && decide (t < be)
  | _, _ => false

/-- `BusinessHours.is_open_at` (src/models.py lines 145-158). -/
def BusinessHours.is_open_at (e : BusinessHours) (t : Nat) : Bool :=
  if e.is_closed then false
  else if !(decide (e.open_time ≤ t) && decide (t < e.close_time)) then false
  else !(inBreak e t)

/-- `BusinessHours.clean` (src/models.py lines 121-143).  The guard
`self.open_time and self.close_time` on the non-null time columns is always
true on Python >= 3.5 and is therefore dropped. -/
def BusinessHours.clean (e : BusinessHours) : Except String Unit :=
  if !e.is_closed then
    if e.close_time ≤ e.open_time then
      Except.error "Open time must be before close time."
    else
      match e.break_start, e.break_end with
      | some bs, some be =>
        if be ≤ bs then Except.error "Break start must be before break end."
        else if bs < e.open_time then Except.error "Break start must be after open time."
        else if e.close_time < be then Except.error "Break end must be before close time."
        else Except.ok ()
      | _, _ => Except.ok ()
  else Except.ok ()

/-- `SpecialDay.clean` (src/models.py lines 253-265). -/
def SpecialDay.clean (s : SpecialDay) : Except String Unit :=
  if !s.is_closed then
    match s.open_time, s.close_time with
    | some ot, some ct =>
      if ct ≤ ot then Except.error "Open time must be before close time."
      else Except.ok ()
    | _, _ =>
      Except.error "Open time and close time are required when the day is not fully closed."
  else Except.ok ()

/-- `ScheduleOverride.clean` (src/models.py lines 313-321): it validates the
date range only; the non-null date columns make its presence guard vacuous. -/
def ScheduleOverride.clean (o : ScheduleOverride) : Except String Unit :=
  if Date.blt o.end_date o.start_date then
    Except.error "Start date must be on or before end date."
  else Except.ok ()

/-- Fuel-indexed body of the `while current < close_time` loop of
`BusinessHours.get_slots` (src/models.py lines 174-194).  `none` means the
fuel ran out before the loop finished; `slotsAux_isSome` below shows any fuel
above `close_time + 1 - pos` suffices when the stride is positive.  In the
break branch both break fields are present (`inBreak`), so `e.break_end.getD 0`
is the stored `break_end` (mirrors `current = self.break_end`). -/
def slotsAux (d : Nat) (e : BusinessHours) : Nat → Nat → Option (List Nat)
  | 0, _ => none
  | fuel + 1, pos =>
    if pos < e.close_time then
      if inBreak e pos then
        slotsAux d e fuel (e.break_end.getD 0)
      else if 1440 ≤ pos + d then
        some [pos]
      else
        (slotsAux d e fuel (pos + d)).map (fun rest => pos :: rest)
    else some []

/-- The slot sequence of the loop started at `pos`, run to completion
(`close_time + 1` fuel always suffices for a positive stride). -/
def slotsFrom (d : Nat) (e : BusinessHours) (pos : Nat) : List Nat :=
  (slotsAux d e (e.close_time + 1) pos).getD []

/-- `BusinessHours.get_slots` (src/models.py lines 160-196) with the stride
`d` already fetched from `ScheduleSettings.slot_duration` (default 30). -/
def get_slots (d : Nat) (e : BusinessHours) : List Nat :=
  if e.is_closed then [] else slotsFrom d e e.open_time

/-- The `get_slots` loop, started at `open_time`, finishes in finitely many
iterations for some amount of fuel. -/
def slotsTerminates (d : Nat) (e : BusinessHours) : Prop :=
  ∃ fuel, (slotsAux d e fuel e.open_time).isSome = true

/-- The override query of both views: first non-deleted override with
`start_date <= today <= end_date` (src/views.py lines 75-78 and 267-270). -/
def findOverride (hub : Hub) (today : Date) : Option ScheduleOverride :=
  hub.overrides.find? (fun o => Date.ble o.start_date today && Date.ble today o.end_date)

/-- The exact-date special-day query of both views: first non-deleted special
day with `date = today` (src/views.py lines 65-67 and 281-283). -/
def findSpecialExact (hub : Hub) (today : Date) : Option SpecialDay :=
  hub.specials.find? (fun s => decide (s.date = today))

/-- The recurring special-day query of the resolver: first non-deleted special
day with `recurring_yearly` and matching month and day
(src/views.py lines 294-299). -/
def findRecurring (hub : Hub) (today : Date) : Option SpecialDay :=
  hub.specials.find? (fun s =>
    s.recurring_yearly && decide (s.date.month = today.month) &&
      decide (s.date.day = today.day))

/-- Tier 4 of `is_open_now` (src/views.py lines 310-323): regular weekly hours
for today's weekday, `No hours configured` when the lookup raises
`DoesNotExist`.  The code stores `is_open_at` into the status before choosing
the reason string. -/
def resolveRegular (hub : Hub) (today : Date) (now : Nat) : Bool × String :=
  match hub.weekly today.weekday with
  | some hours =>
    let isOpen := hours.is_open_at now
    if hours.is_closed then (isOpen, "Closed today")
    else if isOpen then (isOpen, "Regular hours")
    else (isOpen, "Outside business hours")
  | none => (false, "No hours configured")

/-- Tiers 3-4 of `is_open_now` (src/views.py lines 293-323): the recurring
special day short-circuits only when closed or when both times are present. -/
def resolveAfterExact (hub : Hub) (today : Date) (now : Nat) : Bool × String :=
  match findRecurring hub today with
  | some s =>
    if s.is_closed then (false, s.name)
    else
      match s.open_time, s.close_time with
      | some ot, some ct => (decide (ot ≤ now) && decide (now < ct), s.name)
      | _, _ => resolveRegular hub today now
  | none => resolveRegular hub today now

/-- Tiers 2-4 of `is_open_now` (src/views.py lines 280-323). -/
def resolveAfterOverride (hub : Hub) (today : Date) (now : Nat) : Bool × String :=
  match findSpecialExact hub today with
  | some s =>
    if s.is_closed then (false, s.name)
    else
      match s.open_time, s.close_time with
      | some ot, some ct => (decide (ot ≤ now) && decide (now < ct), s.name)
      | _, _ => resolveAfterExact hub today now
  | none => resolveAfterExact hub today now

/-- The `is_open_now` endpoint's `(is_open, reason)` pair
(src/views.py lines 252-324), as a function of the tenant state, the local
date and the local time. -/
def is_open_now (hub : Hub) (today : Date) (now : Nat) : Bool × String :=
  match findOverride hub today with
  | some o =>
    if o.is_closed then (false, o.reason)
    else
      match o.open_time, o.close_time with
      | some ot, some ct => (decide (ot ≤ now) && decide (now < ct), o.reason)
      | _, _ => resolveAfterOverride hub today now
  | none => resolveAfterOverride hub today now

/-- The regular-hours stage of the dashboard's `is_open` computation
(src/views.py lines 54-62). -/
def dashboardRegular (hub : Hub) (today : Date) (now : Nat) : Bool :=
  match hub.weekly today.weekday with
  | some h => if !h.is_closed then h.is_open_at now else false
  | none => false

/-- The dashboard's `is_open` after the special-day stage overwrote the
regular-hours value (src/views.py lines 64-72). -/
def dashboardAfterSpecial (hub : Hub) (today : Date) (now : Nat) : Bool :=
  match findSpecialExact hub today with
  | some s =>
    if s.is_closed then false
    else
      match s.open_time, s.close_time with
      | some ot, some ct => decide (ot ≤ now) && decide (now < ct)
      | _, _ => dashboardRegular hub today now
  | none => dashboardRegular hub today now

/-- The dashboard's final `is_open` flag (src/views.py lines 33-98): regular
weekly hours, then the special day for today applied on top, then the override
covering today applied on top.  No recurring special-day stage exists here. -/
def dashboard_is_open (hub : Hub) (today : Date) (now : Nat) : Bool :=
  match findOverride hub today with
  | some o =>
    if o.is_closed then false
    else
      match o.open_time, o.close_time with
      | some ot, some ct => decide (ot ≤ now) && decide (now < ct)
      | _, _ => dashboardAfterSpecial hub today now
  | none => dashboardAfterSpecial hub today now

/-- One tier of the 4-tier precedence as the spec states it: a closed entry
decides `(false, label)`, an entry with both times decides by interval
membership, anything else is a no-op (`none`). -/
def tierResult (closed : Bool) (ot ct : Option Nat) (label : String) (now : Nat) :
    Option (Bool × String) :=
  if closed then some (false, label)
  else
    match ot, ct with
    | some a, some b => some (decide (a ≤ now) && decide (now < b), label)
    | _, _ => none

/-- Tier 4 as the spec states it. -/
def specTier4 (hub : Hub) (today : Date) (now : Nat) : Bool × String :=
  match hub.weekly today.weekday with
  | some h =>
    if h.is_closed then (false, "Closed today")
    else if h.is_open_at now then (true, "Regular hours")
    else (false, "Outside business hours")
  | none => (false, "No hours configured")

/-- The full 4-tier resolution exactly as the spec's claim states it: the
first tier that is not a no-op decides, tier 4 always decides. -/
def resolveTiers (hub : Hub) (today : Date) (now : Nat) : Bool × String :=
  match (findOverride hub today).bind
      (fun o => tierResult o.is_closed o.open_time o.close_time o.reason now) with
  | some r => r
  | none =>
    match (findSpecialExact hub today).bind
        (fun s => tierResult s.is_closed s.open_time s.close_time s.name now) with
    | some r => r
    | none =>
      match (findRecurring hub today).bind
          (fun s => tierResult s.is_closed s.open_time s.close_time s.name now) with
      | some r => r
      | none => specTier4 hub today now

/-- Weekly hours 09:00-12:00 without break (the spec's slot example). -/
def hoursNineToNoon : BusinessHours := ⟨0, 540, 720, false, none, none⟩

/-- Weekly hours 09:00-18:00 with a 13:00-14:00 break. -/
def hoursWithBreak : BusinessHours := ⟨0, 540, 1080, false, some 780, some 840⟩

/-- A weekly table with every weekday open 09:00-18:00, no break. -/
def allWeekOpen : Nat → Option BusinessHours :=
  fun wd => some ⟨wd, 540, 1080, false, none, none⟩

/-- An override that closes 2026-07-10 .. 2026-07-20. -/
def overrideMaintenance : ScheduleOverride :=
  ⟨⟨2026, 7, 10⟩, ⟨2026, 7, 20⟩, "Maintenance", none, none, true⟩

/-- A special day opening 09:00-18:00 on 2026-07-15. -/
def specialOpenDay : SpecialDay :=
  ⟨⟨2026, 7, 15⟩, "Open day", false, some 540, some 1080, false⟩

/-- Tenant with a closed override and an open special day on the same date. -/
def hubOverrideWins : Hub := ⟨allWeekOpen, [specialOpenDay], [overrideMaintenance]⟩

/-- A yearly recurring closed special day stored with date 2026-12-25. -/
def specialXmasRecurring : SpecialDay :=
  ⟨⟨2026, 12, 25⟩, "Christmas", true, none, none, true⟩

/-- Tenant whose only schedule exception is the recurring Christmas day. -/
def hubRecurringOnly : Hub := ⟨allWeekOpen, [specialXmasRecurring], []⟩

/-- Tenant with regular hours only. -/
def hubPlain : Hub := ⟨allWeekOpen, [], []⟩

/-- An override for October 2026 with open time midnight and close time 12:00. -/
def overrideMidnightOpen : ScheduleOverride :=
  ⟨⟨2026, 10, 1⟩, ⟨2026, 10, 31⟩, "Stocktake", some 0, some 720, false⟩

/-- A closed special day on 2026-10-12. -/
def specialHolidayClosed : SpecialDay :=
  ⟨⟨2026, 10, 12⟩, "Holiday", true, none, none, false⟩

/-- Tenant with the midnight-open override above a closed special day. -/
def hubMidnightOverride : Hub :=
  ⟨allWeekOpen, [specialHolidayClosed], [overrideMidnightOpen]⟩

/-- An override whose open time 18:00 is after its close time 09:00. -/
def overrideBadTimes : ScheduleOverride :=
  ⟨⟨2026, 7, 1⟩, ⟨2026, 7, 31⟩, "Summer hours", some 1080, some 540, false⟩

/-- Weekly hours with open time equal to close time. -/
def hoursEqualTimes : BusinessHours := ⟨0, 540, 540, false, none, none⟩

/-- A non-closed special day with open time equal to close time. -/
def specialEqualTimes : SpecialDay :=
  ⟨⟨2026, 1, 1⟩, "New Year", false, some 540, some 540, false⟩

/-- A closed weekly entry whose stored times are inconsistent (18:00 > 09:00). -/
def hoursClosedInconsistent : BusinessHours := ⟨0, 1080, 540, true, none, none⟩

/-- A closed special day whose stored times are inconsistent. -/
def specialClosedInconsistent : SpecialDay :=
  ⟨⟨2026, 5, 1⟩, "May Day", true, some 1080, some 540, false⟩

theorem is_open_at_closed (e : BusinessHours) (t : Nat) (h : e.is_closed = true) :
    e.is_open_at t = false := by
  simp [BusinessHours.is_open_at, h]

theorem inBreak_iff (e : BusinessHours) (t : Nat) :
    inBreak e t = true ↔
      ∃ bs be, e.break_start = some bs ∧ e.break_end = some be ∧ bs ≤ t ∧ t < be := by
  unfold inBreak
  rcases hbs : e.break_start with _ | bs <;> rcases hbe : e.break_end with _ | be <;>
    simp [hbs, hbe, and_assoc]

theorem slotsAux_mono (d : Nat) (e : BusinessHours) :
    ∀ f₁ f₂ pos L, f₁ ≤ f₂ → slotsAux d e f₁ pos = some L →
      slotsAux d e f₂ pos = some L := by
  intro f₁
  induction f₁ with
  | zero => intro f₂ pos L _ h; simp [slotsAux] at h
  | succ f ih =>
    intro f₂ pos L hle h
    obtain ⟨g, rfl⟩ : ∃ g, f₂ = g + 1 := ⟨f₂ - 1, by omega⟩
    simp only [slotsAux] at h ⊢
    by_cases h1 : pos < e.close_time
    · simp only [if_pos h1] at h ⊢
      by_cases h2 : inBreak e pos
      · simp only [if_pos h2] at h ⊢
        exact ih g _ _ (by omega) h
      · simp only [if_neg h2] at h ⊢
        by_cases h3 : 1440 ≤ pos + d
        · simp only [if_pos h3] at h ⊢
          exact h
        · simp only [if_neg h3] at h ⊢
          obtain ⟨L', hL', hfa⟩ := Option.map_eq_some'.mp h
          rw [ih g _ _ (by omega) hL']
          simpa using hfa
    · simp only [if_neg h1] at h ⊢
      exact h

theorem slotsAux_isSome (d : Nat) (e : BusinessHours) (hd : 1 ≤ d) :
    ∀ fuel pos, 1 ≤ fuel → e.close_time + 1 ≤ pos + fuel →
      (slotsAux d e fuel pos).isSome = true := by
  intro fuel
  induction fuel with
  | zero => intro pos h0 _; omega
  | succ f ih =>
    intro pos _ hbound
    simp only [slotsAux]
    by_cases h1 : pos < e.close_time
    · simp only [if_pos h1]
      by_cases h2 : inBreak e pos
      · simp only [if_pos h2]
        obtain ⟨bs, be, hbs, hbe, hle, hlt⟩ := (inBreak_iff e pos).mp h2
        have hbe' : e.break_end.getD 0 = be := by rw [hbe]; rfl
        rw [hbe']
        exact ih be (by omega) (by omega)
      · simp only [if_neg h2]
        by_cases h3 : 1440 ≤ pos + d
        · simp [h3]
        · simp only [if_neg h3]
          have hs := ih (pos + d) (by omega) (by omega)
          obtain ⟨L, hL⟩ := Option.isSome_iff_exists.mp hs
          simp [hL]
    · simp [h1]

theorem slotsAux_mem (d : Nat) (e : BusinessHours) :
    ∀ fuel pos L t, slotsAux d e fuel pos = some L → e.open_time ≤ pos → t ∈ L →
      e.open_time ≤ t ∧ t < e.close_time ∧ inBreak e t = false := by
  intro fuel
  induction fuel with
  | zero => intro pos L t h _ _; simp [slotsAux] at h
  | succ f ih =>
    intro pos L t h hop ht
    simp only [slotsAux] at h
    by_cases h1 : pos < e.close_time
    · simp only [if_pos h1] at h
      by_cases h2 : inBreak e pos
      · simp only [if_pos h2] at h
        obtain ⟨bs, be, hbs, hbe, hle, hlt⟩ := (inBreak_iff e pos).mp h2
        have hbe' : e.break_end.getD 0 = be := by rw [hbe]; rfl
        rw [hbe'] at h
        exact ih be L t h (by omega) ht
      · simp only [if_neg h2] at h
        by_cases h3 : 1440 ≤ pos + d
        · simp only [if_pos h3, Option.some.injEq] at h
          rw [← h] at ht
          rcases List.mem_singleton.mp ht with rfl
          exact ⟨hop, h1, by simpa using h2⟩
        · simp only [if_neg h3] at h
          obtain ⟨L', hL', hfa⟩ := Option.map_eq_some'.mp h
          rw [← hfa] at ht
          rcases List.mem_cons.mp ht with rfl | htl
          · exact ⟨hop, h1, by simpa using h2⟩
          · exact ih (pos + d) L' t hL' (by omega) htl
    · simp only [if_neg h1, Option.some.injEq] at h
      rw [← h] at ht
      simp at ht

theorem slotsFrom_eq (d : Nat) (e : BusinessHours) (pos : Nat) (hd : 1 ≤ d) :
    slotsFrom d e pos =
      if pos < e.close_time then
        if inBreak e pos then slotsFrom d e (e.break_end.getD 0)
        else if 1440 ≤ pos + d then [pos]
        else pos :: slotsFrom d e (pos + d)
      else [] := by
  by_cases h1 : pos < e.close_time
  · by_cases h2 : inBreak e pos
    · obtain ⟨bs, be, hbs, hbe, hle, hlt⟩ := (inBreak_iff e pos).mp h2
      have hbe' : e.break_end.getD 0 = be := by rw [hbe]; rfl
      have hs := slotsAux_isSome d e hd e.close_time be (by omega) (by omega)
      obtain ⟨L, hL⟩ := Option.isSome_iff_exists.mp hs
      have hL' := slotsAux_mono d e e.close_time (e.close_time + 1) be L (by omega) hL
      simp only [if_pos h1, if_pos h2, hbe']
      unfold slotsFrom
      rw [hL']
      simp only [slotsAux, if_pos h1, if_pos h2, hbe', hL]
    · by_cases h3 : 1440 ≤ pos + d
      · simp only [if_pos h1, if_neg h2, if_pos h3]
        unfold slotsFrom
        simp only [slotsAux, if_pos h1, if_neg h2, if_pos h3]
        rfl
      · have hs := slotsAux_isSome d e hd e.close_time (pos + d) (by omega) (by omega)
        obtain ⟨L, hL⟩ := Option.isSome_iff_exists.mp hs
        have hL' := slotsAux_mono d e e.close_time (e.close_time + 1) (pos + d) L (by omega) hL
        simp only [if_pos h1, if_neg h2, if_neg h3]
        unfold slotsFrom
        rw [hL']
        simp only [slotsAux, if_pos h1, if_neg h2, if_neg h3, hL]
        rfl
  · simp only [if_neg h1]
    unfold slotsFrom
    simp only [slotsAux, if_neg h1]
    rfl

theorem resolveRegular_eq (hub : Hub) (today : Date) (now : Nat) :
    resolveRegular hub today now = specTier4 hub today now := by
  unfold resolveRegular specTier4
  cases hw : hub.weekly today.weekday with
  | none => rfl
  | some h =>
    cases hc : h.is_closed
    · cases ho : h.is_open_at now <;> simp [hc, ho]
    · simp [hc, is_open_at_closed h now hc]

theorem resolveAfterExact_eq (hub : Hub) (today : Date) (now : Nat) :
    resolveAfterExact hub today now =
      match (findRecurring hub today).bind
          (fun s => tierResult s.is_closed s.open_time s.close_time s.name now) with
      | some r => r
      | none => specTier4 hub today now := by
  unfold resolveAfterExact
  cases hr : findRecurring hub today with
  | none => simpa using resolveRegular_eq hub today now
  | some s =>
    cases hc : s.is_closed
    · cases hot : s.open_time <;> cases hct : s.close_time <;>
        simp [tierResult, hc, hot, hct, resolveRegular_eq hub today now]
    · simp [tierResult, hc]

theorem resolveAfterOverride_eq (hub : Hub) (today : Date) (now : Nat) :
    resolveAfterOverride hub today now =
      match (findSpecialExact hub today).bind
          (fun s => tierResult s.is_closed s.open_time s.close_time s.name now) with
      | some r => r
      | none =>
        match (findRecurring hub today).bind
            (fun s => tierResult s.is_closed s.open_time s.close_time s.name now) with
        | some r => r
        | none => specTier4 hub today now := by
  unfold resolveAfterOverride
  cases hs : findSpecialExact hub today with
  | none => simpa using resolveAfterExact_eq hub today now
  | some s =>
    cases hc : s.is_closed
    · cases hot : s.open_time <;> cases hct : s.close_time <;>
        simp [tierResult, hc, hot, hct, resolveAfterExact_eq hub today now]
    · simp [tierResult, hc]

theorem is_open_now_eq_resolveTiers (hub : Hub) (today : Date) (now : Nat) :
    is_open_now hub today now = resolveTiers hub today now := by
  unfold is_open_now resolveTiers
  cases ho : findOverride hub today with
  | none => simpa using resolveAfterOverride_eq hub today now
  | some o =>
    cases hc : o.is_closed
    · cases hot : o.open_time <;> cases hct : o.close_time <;>
        simp [tierResult, hc, hot, hct, resolveAfterOverride_eq hub today now]
    · simp [tierResult, hc]

theorem dashboardRegular_eq (hub : Hub) (today : Date) (now : Nat) :
    dashboardRegular hub today now = (resolveRegular hub today now).1 := by
  unfold dashboardRegular resolveRegular
  cases hw : hub.weekly today.weekday with
  | none => rfl
  | some h =>
    cases hc : h.is_closed
    · cases ho : h.is_open_at now <;> simp [hc, ho]
    · simp [hc, is_open_at_closed h now hc]

theorem resolveAfterExact_of_no_recurring (hub : Hub) (today : Date) (now : Nat)
    (hrec : findRecurring hub today = none) :
    resolveAfterExact hub today now = resolveRegular hub today now := by
  unfold resolveAfterExact
  rw [hrec]

theorem dashboardAfterSpecial_eq (hub : Hub) (today : Date) (now : Nat)
    (hrec : findRecurring hub today = none) :
    dashboardAfterSpecial hub today now = (resolveAfterOverride hub today now).1 := by
  unfold dashboardAfterSpecial resolveAfterOverride
  cases hs : findSpecialExact hub today with
  | none =>
    rw [resolveAfterExact_of_no_recurring hub today now hrec]
    exact dashboardRegular_eq hub today now
  | some s =>
    cases hc : s.is_closed
    · cases hot : s.open_time <;> cases hct : s.close_time <;>
        simp [hc, hot, hct, resolveAfterExact_of_no_recurring hub today now hrec,
          dashboardRegular_eq hub today now]
    · simp [hc]

/-- Claim C1: `is_open_now` applies exactly the 4-tier precedence (override,
exact special day, recurring special day, weekly hours), where in tiers 1-3 a
closed entry decides `(false, reason)`, an entry with both times decides by
interval membership, and anything else is a no-op that falls through; tier 4
produces the four fixed reasons; in particular a closed override beats an open
special day for the same date. -/
theorem c1_resolver_four_tier_precedence :
    (∀ (hub : Hub) (today : Date) (now : Nat),
        is_open_now hub today now = resolveTiers hub today now) ∧
      is_open_now hubOverrideWins ⟨2026, 7, 15⟩ 600 = (false, "Maintenance") :=
  ⟨is_open_now_eq_resolveTiers, by decide⟩

/-- Claim C2: `get_slots` is empty for a closed entry and otherwise equals the
loop sequence from `open_time`; that sequence obeys the stated recurrence: a
position inside the break window jumps to `break_end` without emitting,
otherwise a position strictly before `close_time` is emitted (even when its
nominal end would overrun) and the walk advances by the stride, stopping at a
24:00 rollover; `[09:00,12:00)` at stride 30 yields exactly the six slots. -/
theorem c2_get_slots_characterization :
    (∀ (d : Nat) (e : BusinessHours), e.is_closed = true → get_slots d e = []) ∧
    (∀ (d : Nat) (e : BusinessHours), e.is_closed = false →
        get_slots d e = slotsFrom d e e.open_time) ∧
    (∀ (d : Nat) (e : BusinessHours) (pos : Nat), 1 ≤ d →
        slotsFrom d e pos =
          if pos < e.close_time then
            if inBreak e pos then slotsFrom d e (e.break_end.getD 0)
            else if 1440 ≤ pos + d then [pos]
            else pos :: slotsFrom d e (pos + d)
          else []) ∧
    get_slots 30 hoursNineToNoon = [540, 570, 600, 630, 660, 690] := by
  refine ⟨?_, ?_, ?_, by decide⟩
  · intro d e h
    simp [get_slots, h]
  · intro d e h
    simp [get_slots, h]
  · intro d e pos hd
    exact slotsFrom_eq d e pos hd

/-- Witness for C2 at concrete inputs. -/
theorem c2_get_slots_characterization_witness :
    hoursClosedInconsistent.is_closed = true ∧
      get_slots 30 hoursClosedInconsistent = [] ∧
      hoursNineToNoon.is_closed = false ∧
      get_slots 30 hoursNineToNoon = slotsFrom 30 hoursNineToNoon hoursNineToNoon.open_time ∧
      (1 : Nat) ≤ 30 ∧
      slotsFrom 30 hoursNineToNoon 690 = 690 :: slotsFrom 30 hoursNineToNoon 720 :=
  ⟨rfl, c2_get_slots_characterization.1 30 hoursClosedInconsistent rfl, rfl,
    c2_get_slots_characterization.2.1 30 hoursNineToNoon rfl, by decide,
    by rw [c2_get_slots_characterization.2.2.1 30 hoursNineToNoon 690 (by decide)]; decide⟩

/-- Claim C3 counterexample: for the tenant whose only exception is a closed
recurring special day stored with date 2026-12-25, queried on 2027-12-25 at
10:00, the dashboard reports open while the resolver reports closed — the
dashboard has no recurring-special-day stage. -/
theorem c3_dashboard_recurring_counterexample :
    dashboard_is_open hubRecurringOnly ⟨2027, 12, 25⟩ 600 = true ∧
      (is_open_now hubRecurringOnly ⟨2027, 12, 25⟩ 600).1 = false := by
  constructor <;> decide

/-- Claim C3 (amended): the dashboard's simplified computation produces the
same `is_open` boolean as the full resolver whenever the recurring
special-day lookup for the queried date finds nothing. -/
theorem c3_dashboard_matches_resolver_without_recurring (hub : Hub) (today : Date)
    (now : Nat) (hrec : findRecurring hub today = none) :
    dashboard_is_open hub today now = (is_open_now hub today now).1 := by
  unfold dashboard_is_open is_open_now
  cases ho : findOverride hub today with
  | none => exact dashboardAfterSpecial_eq hub today now hrec
  | some o =>
    cases hc : o.is_closed
    · cases hot : o.open_time <;> cases hct : o.close_time <;>
        simp [hc, hot, hct, dashboardAfterSpecial_eq hub today now hrec]
    · simp [hc]

/-- Witness for the amended C3 at a concrete tenant. -/
theorem c3_dashboard_matches_resolver_witness :
    findRecurring hubPlain ⟨2026, 10, 12⟩ = none ∧
      dashboard_is_open hubPlain ⟨2026, 10, 12⟩ 600 =
        (is_open_now hubPlain ⟨2026, 10, 12⟩ 600).1 :=
  ⟨rfl, c3_dashboard_matches_resolver_without_recurring hubPlain ⟨2026, 10, 12⟩ 600 rfl⟩

/-- Claim C4: for a non-closed entry, `is_open_at t` holds iff
`open_time <= t < close_time` and `t` is not inside a configured break window;
the close and break-end boundaries are exclusive, the open and break-start
boundaries inclusive; concretely for `[09:00,18:00)` with break
`[13:00,14:00)`: 13:00 closed, 13:59 closed, 14:00 open. -/
theorem c4_is_open_at_boundaries :
    (∀ (e : BusinessHours) (t : Nat), e.is_closed = false →
        e.open_time < e.close_time →
        (e.is_open_at t = true ↔
          e.open_time ≤ t ∧ t < e.close_time ∧
            ¬∃ bs be, e.break_start = some bs ∧ e.break_end = some be ∧
              bs ≤ t ∧ t < be)) ∧
      hoursWithBreak.is_open_at 780 = false ∧
      hoursWithBreak.is_open_at 839 = false ∧
      hoursWithBreak.is_open_at 840 = true := by
  refine ⟨?_, by decide, by decide, by decide⟩
  intro e t hc _
  rw [← inBreak_iff, Bool.not_eq_true]
  by_cases h1 : e.open_time ≤ t <;> by_cases h2 : t < e.close_time <;>
    cases hb : inBreak e t <;>
      simp [BusinessHours.is_open_at, hc, h1, h2, hb]

/-- Witness for C4 at a concrete entry and instant. -/
theorem c4_is_open_at_boundaries_witness :
    hoursWithBreak.is_closed = false ∧
      hoursWithBreak.open_time < hoursWithBreak.close_time ∧
      (hoursWithBreak.is_open_at 900 = true ↔
        hoursWithBreak.open_time ≤ 900 ∧ 900 < hoursWithBreak.close_time ∧
          ¬∃ bs be, hoursWithBreak.break_start = some bs ∧
            hoursWithBreak.break_end = some be ∧ bs ≤ 900 ∧ 900 < be) :=
  ⟨rfl, by decide, c4_is_open_at_boundaries.1 hoursWithBreak 900 rfl (by decide)⟩

/-- Claim C5 counterexample: a non-closed override with open time 18:00 after
close time 09:00 passes `ScheduleOverride.clean`, which only validates the
date range. -/
theorem c5_override_time_validation_counterexample :
    overrideBadTimes.is_closed = false ∧
      overrideBadTimes.open_time = some 1080 ∧
      overrideBadTimes.close_time = some 540 ∧
      ScheduleOverride.clean overrideBadTimes = Except.ok () :=
  ⟨rfl, rfl, rfl, rfl⟩

/-- Claim C5 (amended): weekly entries and special days fail validation with a
validation error whenever not closed and `open_time >= close_time` (equality
included); the override's `clean` compares no times at all and checks only
`start_date <= end_date`. -/
theorem c5_interval_validation_amended :
    (∀ e : BusinessHours, e.is_closed = false → e.close_time ≤ e.open_time →
        BusinessHours.clean e = Except.error "Open time must be before close time.") ∧
    (∀ (s : SpecialDay) (ot ct : Nat), s.is_closed = false → s.open_time = some ot →
        s.close_time = some ct → ct ≤ ot →
        SpecialDay.clean s = Except.error "Open time must be before close time.") ∧
    (∀ o : ScheduleOverride, ScheduleOverride.clean o =
        if Date.blt o.end_date o.start_date then
          Except.error "Start date must be on or before end date."
        else Except.ok ()) := by
  refine ⟨?_, ?_, fun o => rfl⟩
  · intro e hc hle
    simp [BusinessHours.clean, hc, hle]
  · intro s ot ct hc hot hct hle
    simp [SpecialDay.clean, hc, hot, hct, hle]

/-- Witness for the amended C5 at the boundary case `open_time = close_time`. -/
theorem c5_interval_validation_witness :
    hoursEqualTimes.is_closed = false ∧
      hoursEqualTimes.close_time ≤ hoursEqualTimes.open_time ∧
      BusinessHours.clean hoursEqualTimes =
        Except.error "Open time must be before close time." ∧
      specialEqualTimes.is_closed = false ∧
      SpecialDay.clean specialEqualTimes =
        Except.error "Open time must be before close time." :=
  ⟨rfl, by decide, c5_interval_validation_amended.1 hoursEqualTimes rfl (by decide), rfl,
    c5_interval_validation_amended.2.1 specialEqualTimes 540 540 rfl rfl rfl (by decide)⟩

/-- Claim C6 counterexample: with stride 0 — storable, since the settings save
path performs no range check — the `get_slots` loop started at 09:00 for the
09:00-12:00 entry never finishes, for any amount of fuel. -/
theorem c6_stride_zero_counterexample : ¬ slotsTerminates 0 hoursNineToNoon := by
  have hnone : ∀ fuel, slotsAux 0 hoursNineToNoon fuel 540 = none := by
    intro fuel
    induction fuel with
    | zero => rfl
    | succ f ih =>
      have h1 : (540 : Nat) < hoursNineToNoon.close_time := by decide
      have h2 : inBreak hoursNineToNoon 540 = false := by decide
      simp [slotsAux, h1, h2, ih]
  rintro ⟨fuel, hs⟩
  rw [show hoursNineToNoon.open_time = 540 from rfl, hnone fuel] at hs
  simp at hs

/-- Claim C6 (amended): for every weekly entry and every stride of at least
one minute — which includes the spec's expected 5..120 range and the default
30 — the `get_slots` loop terminates with a finite slot list. -/
theorem c6_get_slots_terminates_amended (d : Nat) (e : BusinessHours) (hd : 1 ≤ d) :
    slotsTerminates d e :=
  ⟨e.close_time + 1,
    slotsAux_isSome d e hd (e.close_time + 1) e.open_time (by omega) (by omega)⟩

/-- Witness for the amended C6 at the default stride. -/
theorem c6_get_slots_terminates_witness :
    (1 : Nat) ≤ 30 ∧ slotsTerminates 30 hoursNineToNoon :=
  ⟨by decide, c6_get_slots_terminates_amended 30 hoursNineToNoon (by decide)⟩

/-- Claim C7: when `is_closed` is true, `clean` of a weekly entry or a special
day succeeds unconditionally, no matter how inconsistent the stored times. -/
theorem c7_closed_skips_validation :
    (∀ e : BusinessHours, e.is_closed = true → BusinessHours.clean e = Except.ok ()) ∧
      ∀ s : SpecialDay, s.is_closed = true → SpecialDay.clean s = Except.ok () := by
  constructor
  · intro e h
    simp [BusinessHours.clean, h]
  · intro s h
    simp [SpecialDay.clean, h]

/-- Witness for C7 at entries with inconsistent stored times. -/
theorem c7_closed_skips_validation_witness :
    hoursClosedInconsistent.is_closed = true ∧
      BusinessHours.clean hoursClosedInconsistent = Except.ok () ∧
      specialClosedInconsistent.is_closed = true ∧
      SpecialDay.clean specialClosedInconsistent = Except.ok () :=
  ⟨rfl, c7_closed_skips_validation.1 hoursClosedInconsistent rfl, rfl,
    c7_closed_skips_validation.2 specialClosedInconsistent rfl⟩

/-- Claim C8: the recurring lookup returns exactly the special days with
`recurring_yearly` whose stored month and day match the queried date; the
recurring Christmas day stored as 2026-12-25 drives resolution on 2027-12-25
and 2025-12-25 but not on 2026-12-24. -/
theorem c8_recurring_month_day_match :
    (∀ (hub : Hub) (today : Date) (s : SpecialDay), findRecurring hub today = some s →
        s.recurring_yearly = true ∧ s.date.month = today.month ∧
          s.date.day = today.day) ∧
    (∀ (w : Nat → Option BusinessHours) (os : List ScheduleOverride) (today : Date)
        (s : SpecialDay), s.recurring_yearly = true → s.date.month = today.month →
        s.date.day = today.day → findRecurring ⟨w, [s], os⟩ today = some s) ∧
    is_open_now hubRecurringOnly ⟨2027, 12, 25⟩ 600 = (false, "Christmas") ∧
    is_open_now hubRecurringOnly ⟨2025, 12, 25⟩ 600 = (false, "Christmas") ∧
    is_open_now hubRecurringOnly ⟨2026, 12, 24⟩ 600 = (true, "Regular hours") := by
  refine ⟨?_, ?_, by decide, by decide, by decide⟩
  · intro hub today s h
    unfold findRecurring at h
    have hp := List.find?_some h
    simp only [Bool.and_eq_true, decide_eq_true_eq] at hp
    exact ⟨hp.1.1, hp.1.2, hp.2⟩
  · intro w os today s h1 h2 h3
    unfold findRecurring
    simp [List.find?, h1, h2, h3]

/-- Witness for C8 at the recurring Christmas tenant. -/
theorem c8_recurring_month_day_match_witness :
    specialXmasRecurring.recurring_yearly = true ∧
      findRecurring hubRecurringOnly ⟨2027, 12, 25⟩ = some specialXmasRecurring ∧
      (specialXmasRecurring.recurring_yearly = true ∧
        specialXmasRecurring.date.month = (Date.mk 2027 12 25).month ∧
        specialXmasRecurring.date.day = (Date.mk 2027 12 25).day) :=
  ⟨rfl,
    c8_recurring_month_day_match.2.1 allWeekOpen [] ⟨2027, 12, 25⟩
      specialXmasRecurring rfl rfl rfl,
    c8_recurring_month_day_match.1 hubRecurringOnly ⟨2027, 12, 25⟩ specialXmasRecurring
      (c8_recurring_month_day_match.2.1 allWeekOpen [] ⟨2027, 12, 25⟩
        specialXmasRecurring rfl rfl rfl)⟩

/-- Claim C9 counterexample: an override with `open_time` midnight and
`close_time` 12:00 does short-circuit tier 1 — the resolver answers with the
override's interval and reason instead of falling through to the closed
special day underneath. -/
theorem c9_midnight_counterexample :
    is_open_now hubMidnightOverride ⟨2026, 10, 12⟩ 600 = (true, "Stocktake") ∧
      is_open_now hubMidnightOverride ⟨2026, 10, 12⟩ 600 ≠ (false, "Holiday") := by
  constructor <;> decide

/-- Claim C9 (amended): the presence guards of tiers 1-3 test only for null —
every stored time, midnight included, is truthy on Python >= 3.5 — so a
non-closed override or special day with `open_time` 00:00 and `close_time`
set short-circuits its tier with the interval result. -/
theorem c9_midnight_is_present_amended :
    (∀ (hub : Hub) (today : Date) (now : Nat) (o : ScheduleOverride) (ct : Nat),
        findOverride hub today = some o → o.is_closed = false →
        o.open_time = some 0 → o.close_time = some ct →
        is_open_now hub today now = (decide (0 ≤ now) && decide (now < ct), o.reason)) ∧
    ∀ (hub : Hub) (today : Date) (now : Nat) (s : SpecialDay) (ct : Nat),
        findOverride hub today = none → findSpecialExact hub today = some s →
        s.is_closed = false → s.open_time = some 0 → s.close_time = some ct →
        is_open_now hub today now = (decide (0 ≤ now) && decide (now < ct), s.name) := by
  constructor
  · intro hub today now o ct ho hc hot hct
    unfold is_open_now
    rw [ho]
    simp [hc, hot, hct]
  · intro hub today now s ct ho hs hc hot hct
    unfold is_open_now resolveAfterOverride
    rw [ho, hs]
    simp [hc, hot, hct]

/-- Witness for the amended C9 at the midnight-open override. -/
theorem c9_midnight_is_present_witness :
    findOverride hubMidnightOverride ⟨2026, 10, 12⟩ = some overrideMidnightOpen ∧
      overrideMidnightOpen.is_closed = false ∧
      is_open_now hubMidnightOverride ⟨2026, 10, 12⟩ 600 =
        (decide (0 ≤ 600) && decide (600 < 720), overrideMidnightOpen.reason) :=
  ⟨rfl, rfl,
    c9_midnight_is_present_amended.1 hubMidnightOverride ⟨2026, 10, 12⟩ 600
      overrideMidnightOpen 720 rfl rfl rfl rfl⟩

/-- Claim C10: every slot start emitted by `get_slots` of a non-closed entry
satisfies `is_open_at`: it lies in `[open_time, close_time)` and outside the
break window, with no precondition on the stored break fields. -/
theorem c10_slots_satisfy_is_open_at (d : Nat) (e : BusinessHours) (t : Nat)
    (_hd : 1 ≤ d) (hc : e.is_closed = false) (ht : t ∈ get_slots d e) :
    e.is_open_at t = true := by
  simp only [get_slots, hc] at ht
  rw [if_neg (by simp)] at ht
  unfold slotsFrom at ht
  cases hL : slotsAux d e (e.close_time + 1) e.open_time with
  | none =>
    rw [hL] at ht
    simp at ht
  | some L =>
    rw [hL] at ht
    simp only [Option.getD_some] at ht
    obtain ⟨h1, h2, h3⟩ :=
      slotsAux_mem d e (e.close_time + 1) e.open_time L t hL (Nat.le_refl _) ht
    simp [BusinessHours.is_open_at, hc, h1, h2, h3]

/-- Witness for C10 at a concrete entry with a break. -/
theorem c10_slots_satisfy_is_open_at_witness :
    (1 : Nat) ≤ 60 ∧ hoursWithBreak.is_closed = false ∧
      840 ∈ get_slots 60 hoursWithBreak ∧ hoursWithBreak.is_open_at 840 = true :=
  ⟨by decide, rfl, by decide,
    c10_slots_satisfy_is_open_at 60 hoursWithBreak 840 (by decide) rfl (by decide)⟩

end Schedules
